import Mathlib

/-!
# Verification of the Mass-GitHub-Repo-Deleter authorization and batch-action core

A shallow embedding of the security/auth/api core of the repository:
request validation (`validateRepoList`), error sanitization (`sanitizeError`),
the batch delete/archive engine, the OAuth callback and session-token codec,
and the in-memory rate limiter.  Definitions are translated from the
TypeScript source (src/utils/security.ts, src/routes/auth.ts api segment,
and the hardened security utils); theorems settle the specification claims.
-/

namespace MassRepoDeleter

/-! ## Constants (src/utils/security.ts) -/

def JWT_AUDIENCE : String := "mass-github-repo-deleter"

def MAX_REPO_BATCH : Nat := 100

def MAX_REPO_NAME_LENGTH : Nat := 100

def CLEANUP_LIMIT : Nat := 5000

/-! ## JavaScript string helpers

`String.prototype.trim` removes the JS WhiteSpace and LineTerminator
characters from both ends.  `jsSplitOnSlash` models `s.split('/')`. -/

def isJsWhitespace (c : Char) : Bool :=
  c = ' ' || c = '\t' || c = '\n' || c = '\u000B' || c = '\u000C' || c = '\r' ||
  c = '\u00A0' || c = '\u1680' ||
  (0x2000 ≤ c.toNat && c.toNat ≤ 0x200A) ||
  c = '\u2028' || c = '\u2029' || c = '\u202F' || c = '\u205F' ||
  c = '\u3000' || c = '\uFEFF'

def jsTrim (s : String) : String :=
  String.mk ((((s.toList.dropWhile isJsWhitespace).reverse).dropWhile isJsWhitespace).reverse)

/-- Splitting a character list on a separator, the semantics of
JavaScript `String.prototype.split` with a single-character separator. -/
def splitOnChar (sep : Char) : List Char → List (List Char)
  | [] => [[]]
  | c :: rest =>
    match splitOnChar sep rest with
    | [] => if c = sep then [[], []] else [[c]]
    | h :: t => if c = sep then [] :: h :: t else (c :: h) :: t

/-- `s.split('/')`. -/
def jsSplitSlash (s : String) : List String :=
  (splitOnChar '/' s.toList).map String.mk

/-- The character class `[a-zA-Z0-9._-]` of `REPO_NAME_PATTERN`. -/
def isRepoNameChar (c : Char) : Bool :=
  (('a' ≤ c && c ≤ 'z') || ('A' ≤ c && c ≤ 'Z') || ('0' ≤ c && c ≤ '9') ||
   c = '.' || c = '_' || c = '-')

/-- `REPO_NAME_PATTERN = /^[a-zA-Z0-9._-]+\/[a-zA-Z0-9._-]+$/` : exactly one
slash separating two non-empty runs of allowed characters. -/
def repoNamePattern (s : String) : Bool :=
  match jsSplitSlash s with
  | [owner, repo] =>
    owner ≠ "" && repo ≠ "" && owner.toList.all isRepoNameChar && repo.toList.all isRepoNameChar
  | _ => false

/-- `const [owner, repo] = repoFullName.split('/')` (first two fields; on a
string matching `repoNamePattern` there are exactly two). -/
def splitOwnerRepo (s : String) : String × String :=
  match jsSplitSlash s with
  | owner :: repo :: _ => (owner, repo)
  | _ => (s, "")

/-! ## Request-body validation (src/routes/auth.ts, api segment) -/

/-- A JSON array element of the `repos` field: a string or some non-string value. -/
inductive RepoInput where
  | str (s : String)
  | notStr
deriving DecidableEq

/-- The `repos` field of the request body: an array or some non-array value. -/
inductive ReposField where
  | arr (items : List RepoInput)
  | notArr
deriving DecidableEq

/-- `class RequestBodyError extends Error { status }` (default status 400). -/
structure RequestBodyError where
  message : String
  status : Nat := 400
deriving DecidableEq

/-- The element-wise part of `validateRepoList` (`value.map(repo => ...)`,
which throws on the first offending element). -/
def validateItems : List RepoInput → Except RequestBodyError (List String)
  | [] => .ok []
  | .notStr :: _ => .error { message := "Invalid repository identifier in request body" }
  | .str s :: rest =>
    let trimmed := jsTrim s
    if MAX_REPO_NAME_LENGTH < trimmed.length then
      .error { message := "Repository name too long" }
    else if !repoNamePattern trimmed then
      .error { message := "Invalid repository format. Expected owner/repo" }
    else
      match validateItems rest with
      | .error e => .error e
      | .ok tail => .ok (trimmed :: tail)

/-- `validateRepoList` from src/routes/auth.ts (api segment): array check,
batch-size check, then per-element string/length/pattern checks on the
trimmed value. -/
def validateRepoList : ReposField → Except RequestBodyError (List String)
  | .notArr => .error { message := "Invalid request: repos must be a non-empty array" }
  | .arr items =>
    if items.length = 0 then
      .error { message := "Invalid request: repos must be a non-empty array" }
    else if MAX_REPO_BATCH < items.length then
      .error { message := "Invalid request: maximum of 100 repositories per request" }
    else
      validateItems items

/-! ## Error sanitization (hardened security utils, `sanitizeError`) -/

/-- A JavaScript exception value: an `Error` with a message, or any other value. -/
inductive JsError where
  | mk (message : String)
  | nonError
deriving DecidableEq

/-- The needle list heads the haystack list. -/
def leadsWith : List Char → List Char → Bool
  | [], _ => true
  | _ :: _, [] => false
  | a :: as, b :: bs => a = b && leadsWith as bs

/-- The needle occurs as a contiguous subsequence. -/
def containsSeq (needle : List Char) : List Char → Bool
  | [] => leadsWith needle []
  | c :: rest => leadsWith needle (c :: rest) || containsSeq needle rest

/-- `haystack.includes(needle)`. -/
def jsIncludes (haystack needle : String) : Bool :=
  containsSeq needle.toList haystack.toList

/-- `String.prototype.toLowerCase` (ASCII range, which covers every needle
`sanitizeError` searches for). -/
def jsToLower (s : String) : String :=
  String.mk (s.toList.map Char.toLower)

/-- `sanitizeError(error, isDev)`: generic messages when not dev, raw
`error.message` when dev. -/
def sanitizeError (error : JsError) (isDev : Bool) : String :=
  if !isDev then
    match error with
    | .mk message =>
      let m := jsToLower message
      if jsIncludes m "jwt" || jsIncludes m "token" || jsIncludes m "auth" then
        "Authentication failed"
      else if jsIncludes m "github" || jsIncludes m "api" then
        "External service error"
      else
        "An error occurred"
    | .nonError => "An error occurred"
  else
    match error with
    | .mk message => message
    | .nonError => "An unexpected error occurred"

/-- `const isDev = c.env?.ENVIRONMENT !== 'production'` — the `ENVIRONMENT`
variable may be absent (`none`). -/
def envIsDev (environment : Option String) : Bool :=
  environment ≠ some "production"

/-- The fixed set of generic, non-leaking error strings `sanitizeError` can
produce in its non-dev branch. -/
def genericErrorMessages : List String :=
  ["Authentication failed", "External service error", "An error occurred"]

/-! ## The batch action engine (src/routes/auth.ts, api segment)

The upstream GitHub API is modelled as an oracle: `octokit.repos.get`
either yields the repository owner's login or throws, and
`octokit.repos.delete` / `octokit.repos.update({archived: true})` either
succeed or throw. -/

/-- Outcome of `octokit.repos.get({owner, repo})`: the fetched repository's
`owner.login`, or a thrown error (not found / inaccessible). -/
inductive FetchOutcome where
  | ok (ownerLogin : String)
  | err
deriving DecidableEq

/-- The upstream GitHub API as a deterministic oracle for one batch. -/
structure Upstream where
  fetchRepo : String → String → FetchOutcome
  /-- `octokit.repos.delete` succeeds (`true`) or throws (`false`). -/
  deleteRepo : String → String → Bool
  /-- `octokit.repos.update({archived: true})` succeeds or throws. -/
  archiveRepo : String → String → Bool

/-- `ActionResult` from src/types.ts. -/
structure ActionResult where
  repo : String
  success : Bool
  error : Option String := none
deriving DecidableEq

/-- The upstream calls a handler issues, in order, as (owner, repo) pairs. -/
structure Effects where
  fetchCalls : List (String × String) := []
  deleteCalls : List (String × String) := []
  archiveCalls : List (String × String) := []
deriving DecidableEq

def Effects.append (a b : Effects) : Effects :=
  { fetchCalls := a.fetchCalls ++ b.fetchCalls
    deleteCalls := a.deleteCalls ++ b.deleteCalls
    archiveCalls := a.archiveCalls ++ b.archiveCalls }

def joinEffects (l : List Effects) : Effects :=
  l.foldr Effects.append {}

/-- One iteration of the `/delete` loop: ownership check, then (unless
`dryRun`) the destructive call; a failing destructive call is caught by the
outer per-item `catch`. -/
def processDeleteItem (up : Upstream) (githubUser : String) (dryRun : Bool)
    (repoFullName : String) : ActionResult × Effects :=
  match up.fetchRepo (splitOwnerRepo repoFullName).1 (splitOwnerRepo repoFullName).2 with
  | .err =>
    ({ repo := repoFullName, success := false,
       error := some "Repository not found or access denied" },
     { fetchCalls := [splitOwnerRepo repoFullName] })
  | .ok ownerLogin =>
    if ownerLogin ≠ githubUser then
      ({ repo := repoFullName, success := false,
         error := some "Repository not found or access denied" },
       { fetchCalls := [splitOwnerRepo repoFullName] })
    else if dryRun then
      ({ repo := repoFullName, success := true },
       { fetchCalls := [splitOwnerRepo repoFullName] })
    else if up.deleteRepo (splitOwnerRepo repoFullName).1 (splitOwnerRepo repoFullName).2 then
      ({ repo := repoFullName, success := true },
       { fetchCalls := [splitOwnerRepo repoFullName],
         deleteCalls := [splitOwnerRepo repoFullName] })
    else
      ({ repo := repoFullName, success := false,
         error := some "GitHub API request failed" },
       { fetchCalls := [splitOwnerRepo repoFullName],
         deleteCalls := [splitOwnerRepo repoFullName] })

/-- One iteration of the `/archive` loop. -/
def processArchiveItem (up : Upstream) (githubUser : String)
    (repoFullName : String) : ActionResult × Effects :=
  match up.fetchRepo (splitOwnerRepo repoFullName).1 (splitOwnerRepo repoFullName).2 with
  | .err =>
    ({ repo := repoFullName, success := false,
       error := some "Repository not found or access denied" },
     { fetchCalls := [splitOwnerRepo repoFullName] })
  | .ok ownerLogin =>
    if ownerLogin ≠ githubUser then
      ({ repo := repoFullName, success := false,
         error := some "Repository not found or access denied" },
       { fetchCalls := [splitOwnerRepo repoFullName] })
    else if up.archiveRepo (splitOwnerRepo repoFullName).1 (splitOwnerRepo repoFullName).2 then
      ({ repo := repoFullName, success := true },
       { fetchCalls := [splitOwnerRepo repoFullName],
         archiveCalls := [splitOwnerRepo repoFullName] })
    else
      ({ repo := repoFullName, success := false,
         error := some "GitHub API request failed" },
       { fetchCalls := [splitOwnerRepo repoFullName],
         archiveCalls := [splitOwnerRepo repoFullName] })

/-- The sequential `for (const repoFullName of repos)` loop of `/delete`:
one result pushed per identifier, effects in submitted order. -/
def executeDelete (up : Upstream) (githubUser : String) (dryRun : Bool)
    (repos : List String) : List ActionResult × Effects :=
  (repos.map fun r => (processDeleteItem up githubUser dryRun r).1,
   joinEffects (repos.map fun r => (processDeleteItem up githubUser dryRun r).2))

/-- The sequential loop of `/archive`. -/
def executeArchive (up : Upstream) (githubUser : String)
    (repos : List String) : List ActionResult × Effects :=
  (repos.map fun r => (processArchiveItem up githubUser r).1,
   joinEffects (repos.map fun r => (processArchiveItem up githubUser r).2))

/-- `summary` as computed by the handlers: `total` from the validated input
list, `succeeded`/`failed` by filtering the result list. -/
structure Summary where
  total : Nat
  succeeded : Nat
  failed : Nat
deriving DecidableEq

def mkSummary (repos : List String) (results : List ActionResult) : Summary :=
  { total := repos.length
    succeeded := (results.filter fun r => r.success).length
    failed := (results.filter fun r => !r.success).length }

/-- The `dryRun` field of the request body: absent, a boolean, or some
non-boolean value (`typeof body.dryRun !== 'boolean'`). -/
inductive DryRunField where
  | b (v : Bool)
  | nonBool
deriving DecidableEq

/-- Parsed JSON body of `POST /api/delete`. -/
structure DeleteBody where
  repos : ReposField
  dryRun : Option DryRunField := none
deriving DecidableEq

/-- Response of a batch handler (after JWT verification succeeded). -/
inductive BatchResponse where
  | ok (dryRun : Bool) (results : List ActionResult) (summary : Summary)
  | err (status : Nat) (message : String)
deriving DecidableEq

/-- `POST /api/delete` after `verifyJWT`: dryRun type check, repo-list
validation (both before any upstream call), then the sequential loop and
the summary. -/
def deleteHandler (up : Upstream) (githubUser : String) (body : DeleteBody) :
    BatchResponse × Effects :=
  match body.dryRun with
  | some .nonBool => (.err 400 "Invalid request: dryRun must be a boolean flag", {})
  | _ =>
    match validateRepoList body.repos with
    | .error e => (.err e.status e.message, {})
    | .ok repos =>
      let dryRun := body.dryRun = some (.b true)
      let (results, eff) := executeDelete up githubUser dryRun repos
      (.ok dryRun results (mkSummary repos results), eff)

/-- `POST /api/archive` after `verifyJWT`. -/
def archiveHandler (up : Upstream) (githubUser : String) (repos : ReposField) :
    BatchResponse × Effects :=
  match validateRepoList repos with
  | .error e => (.err e.status e.message, {})
  | .ok validated =>
    let (results, eff) := executeArchive up githubUser validated
    (.ok false results (mkSummary validated results), eff)

/-- The per-item ownership check of the `/delete` and `/archive` loops passes:
the upstream fetch succeeds and the returned owner login equals the
authenticated user. -/
def ownershipCheckPasses (up : Upstream) (githubUser : String)
    (repoFullName : String) : Bool :=
  match up.fetchRepo (splitOwnerRepo repoFullName).1 (splitOwnerRepo repoFullName).2 with
  | .ok ownerLogin => ownerLogin = githubUser
  | .err => false

/-! ## Session token codec (src/routes/auth.ts)

A JWT is modelled abstractly: its claims plus the key it was signed with;
`jwtVerify` succeeds exactly when the verification key equals the signing
key, the `aud` claim matches the expected audience, and the token has not
expired. -/

/-- The JWT claim set.  `token`, `jti`, `githubUser` are the custom claims
the middleware inspects; `aud`, `iss`, `iat`, `exp` are the registered
claims the callback sets. -/
structure JWTPayload where
  token : Option String := none
  jti : Option String := none
  githubUser : Option String := none
  aud : Option String := none
  iss : Option String := none
  iat : Option Nat := none
  exp : Option Nat := none
deriving DecidableEq

/-- An HS256-signed JWT: claims plus the secret it was signed with. -/
structure SignedJWT where
  payload : JWTPayload
  signingSecret : String
deriving DecidableEq

/-- JavaScript truthiness for an optional string (`undefined` and `''` are
falsy). -/
def truthyStr : Option String → Bool
  | none => false
  | some s => s ≠ ""

/-- The `SignJWT` chain of the OAuth callback (auth.ts lines 163–172):
`{ token: accessToken }`, `setExpirationTime('10m')`, `setIssuedAt()`,
`setJti(uuid)`, `setAudience(JWT_AUDIENCE)`, `setIssuer(...)`.  Time is in
seconds.  Note: no `githubUser` claim is ever set. -/
def issueSessionToken (secret accessToken jti : String) (now : Nat) : SignedJWT :=
  { payload :=
      { token := some accessToken
        jti := some jti
        githubUser := none
        aud := some JWT_AUDIENCE
        iss := some "mass-github-repo-deleter"
        iat := some now
        exp := some (now + 600) }
    signingSecret := secret }

/-- Failure modes of jose's `jwtVerify`. -/
inductive JoseError where
  | signatureInvalid
  | audienceMismatch
  | expired
deriving DecidableEq

def joseErrorMessage : JoseError → String
  | .signatureInvalid => "signature verification failed"
  | .audienceMismatch => "unexpected \"aud\" claim value"
  | .expired => "\"exp\" claim timestamp check failed"

/-- `jwtVerify(token, secret, { audience })`. -/
def jwtVerifyModel (jwt : SignedJWT) (secret : String) (audience : String)
    (now : Nat) : Except JoseError JWTPayload :=
  if jwt.signingSecret ≠ secret then .error .signatureInvalid
  else if jwt.payload.aud ≠ some audience then .error .audienceMismatch
  else
    match jwt.payload.exp with
    | some e => if e ≤ now then .error .expired else .ok jwt.payload
    | none => .ok jwt.payload

/-- Outcome of the `verifyJWT` middleware: the request proceeds with
`githubToken` and `githubUser` set, or is rejected with a 401 body. -/
inductive AuthOutcome where
  | ok (githubToken : String) (githubUser : String)
  | unauthorized (message : String)
deriving DecidableEq

/-- The `verifyJWT` middleware (auth.ts api segment lines 305–334):
`ensureStrongSecret`, token extraction, `jwtVerify` with audience, then the
required-claim checks on `token`, `jti` and `githubUser`.  A thrown error is
mapped through `sanitizeError`. -/
def verifyJWTMiddleware (secret : String) (environment : Option String)
    (tok : Option SignedJWT) (now : Nat) : AuthOutcome :=
  if secret.length < 32 then
    .unauthorized (sanitizeError
      (.mk "JWT_SECRET must be at least 32 characters long") (envIsDev environment))
  else
    match tok with
    | none => .unauthorized "Authentication required"
    | some jwt =>
      match jwtVerifyModel jwt secret JWT_AUDIENCE now with
      | .error e =>
        .unauthorized (sanitizeError (.mk (joseErrorMessage e)) (envIsDev environment))
      | .ok payload =>
        if !truthyStr payload.token || !truthyStr payload.jti then
          .unauthorized "Invalid authentication token"
        else if !truthyStr payload.githubUser then
          .unauthorized "Invalid authentication token"
        else
          .ok (payload.token.getD "") (payload.githubUser.getD "")

/-! ## OAuth callback (src/routes/auth.ts lines 120–190) -/

/-- The inputs of one callback request: `code` and `state` query parameters
and the `oauth_state` cookie. -/
structure CallbackRequest where
  code : Option String := none
  state : Option String := none
  stateCookie : Option String := none
deriving DecidableEq

/-- Outcome of the code-for-token exchange with the provider. -/
inductive ExchangeOutcome where
  | token (accessToken : String)
  | noToken
deriving DecidableEq

/-- Observable outcome of the callback handler: HTTP status, whether the
state cookie was cleared (an expired `Set-Cookie` emitted), whether the
token-exchange endpoint was called, and the session cookie / redirect on
success. -/
structure CallbackResult where
  status : Nat
  clearedStateCookie : Bool
  exchangeCalled : Bool
  authCookie : Option SignedJWT := none
  redirect : Option String := none
deriving DecidableEq

/-- The `/callback` handler: `ensureStrongSecret` (a throw reaches the catch
and yields 500), missing-code check, state check (clear cookie and abort on
mismatch), then the exchange, then session-token issuance. -/
def callbackHandler (secret : String) (exchange : String → ExchangeOutcome)
    (req : CallbackRequest) (jti : String) (now : Nat) : CallbackResult :=
  if secret.length < 32 then
    { status := 500, clearedStateCookie := false, exchangeCalled := false }
  else if !truthyStr req.code then
    { status := 400, clearedStateCookie := false, exchangeCalled := false }
  else if !truthyStr req.state || !truthyStr req.stateCookie
      || req.stateCookie ≠ req.state then
    { status := 400, clearedStateCookie := true, exchangeCalled := false }
  else
    match exchange (req.code.getD "") with
    | .noToken => { status := 400, clearedStateCookie := true, exchangeCalled := true }
    | .token accessToken =>
      { status := 302, clearedStateCookie := true, exchangeCalled := true,
        authCookie := some (issueSessionToken secret accessToken jti now),
        redirect := some "/" }

/-! ## Rate limiter (src/utils/security.ts lines 64–92) -/

structure RateLimitEntry where
  count : Nat
  expiresAt : Nat
deriving DecidableEq

structure RateLimitOptions where
  windowMs : Nat
  limit : Nat
deriving DecidableEq

/-- The per-options `Map<string, RateLimitEntry>` store, as an insertion
ordered association list (`Map.set` replaces in place, appends when new). -/
abbrev RateLimitStore := List (String × RateLimitEntry)

def storeGet (store : RateLimitStore) (key : String) : Option RateLimitEntry :=
  (store.find? fun e => e.1 = key).map (·.2)

def storeSet (store : RateLimitStore) (key : String) (entry : RateLimitEntry) :
    RateLimitStore :=
  match store with
  | [] => [(key, entry)]
  | (k, e) :: rest =>
    if k = key then (key, entry) :: rest else (k, e) :: storeSet rest key entry

/-- `cleanupStore`: only sweeps expired entries once the store exceeds
`CLEANUP_LIMIT`. -/
def cleanupStore (store : RateLimitStore) (now : Nat) : RateLimitStore :=
  if store.length ≤ CLEANUP_LIMIT then store
  else store.filter fun e => !(e.2.expiresAt ≤ now)

inductive RateLimitDecision where
  | allowed
  | tooManyRequests
deriving DecidableEq

/-- One request through the middleware returned by `createRateLimiter`:
OPTIONS bypasses; a missing or expired entry resets to count 1; a count at
the limit yields 429; otherwise the count is incremented. -/
def rateLimitStep (options : RateLimitOptions) (store : RateLimitStore)
    (key : String) (now : Nat) (isOptionsMethod : Bool) :
    RateLimitDecision × RateLimitStore :=
  if isOptionsMethod then (.allowed, store)
  else
    match storeGet store key with
    | none =>
      (.allowed,
       cleanupStore (storeSet store key { count := 1, expiresAt := now + options.windowMs }) now)
    | some entry =>
      if entry.expiresAt ≤ now then
        (.allowed,
         cleanupStore (storeSet store key { count := 1, expiresAt := now + options.windowMs }) now)
      else if options.limit ≤ entry.count then
        (.tooManyRequests, store)
      else
        (.allowed,
         cleanupStore
           (storeSet store key { count := entry.count + 1, expiresAt := entry.expiresAt }) now)

/-- A sequence of non-OPTIONS requests from one client identifier at the
given times. -/
def runRateLimiter (options : RateLimitOptions) (store : RateLimitStore)
    (key : String) : List Nat → List RateLimitDecision × RateLimitStore
  | [] => ([], store)
  | t :: ts =>
    let step := rateLimitStep options store key t false
    let rest := runRateLimiter options step.2 key ts
    (step.1 :: rest.1, rest.2)

/-! ## Concrete instances used by witnesses -/

/-- A 32-character signing secret. -/
def sampleSecret : String := "0123456789abcdef0123456789abcdef"

/-- An upstream where every repository is owned by `alice` and all calls
succeed. -/
def upstreamAlice : Upstream :=
  { fetchRepo := fun _ _ => .ok "alice"
    deleteRepo := fun _ _ => true
    archiveRepo := fun _ _ => true }

/-- An upstream where every fetch fails (missing or inaccessible). -/
def upstreamMissing : Upstream :=
  { fetchRepo := fun _ _ => .err
    deleteRepo := fun _ _ => true
    archiveRepo := fun _ _ => true }

/-! ## Helper lemmas -/

theorem effects_append_deleteCalls (a b : Effects) :
    (Effects.append a b).deleteCalls = a.deleteCalls ++ b.deleteCalls := rfl

theorem joinEffects_deleteCalls_nil (l : List Effects)
    (h : ∀ e ∈ l, e.deleteCalls = []) : (joinEffects l).deleteCalls = [] := by
  induction l with
  | nil => rfl
  | cons a t ih =>
    have ha : a.deleteCalls = [] := h a (by simp)
    have ht : (joinEffects t).deleteCalls = [] := ih fun e he => h e (by simp [he])
    show (Effects.append a (joinEffects t)).deleteCalls = []
    rw [effects_append_deleteCalls, ha, ht]
    rfl

theorem processDeleteItem_dryRun_deleteCalls (up : Upstream) (githubUser : String)
    (r : String) : (processDeleteItem up githubUser true r).2.deleteCalls = [] := by
  unfold processDeleteItem
  repeat' split
  all_goals first | rfl | simp_all

theorem processDeleteItem_repo (up : Upstream) (githubUser : String) (d : Bool)
    (r : String) : ((processDeleteItem up githubUser d r).1).repo = r := by
  unfold processDeleteItem
  repeat' split
  all_goals rfl

theorem processArchiveItem_repo (up : Upstream) (githubUser : String)
    (r : String) : ((processArchiveItem up githubUser r).1).repo = r := by
  unfold processArchiveItem
  repeat' split
  all_goals rfl

theorem processDeleteItem_pass_dryRun (up : Upstream) (githubUser : String)
    (r : String) (hp : ownershipCheckPasses up githubUser r = true) :
    (processDeleteItem up githubUser true r).1 =
      { repo := r, success := true } := by
  unfold ownershipCheckPasses at hp
  unfold processDeleteItem
  cases hf : up.fetchRepo (splitOwnerRepo r).1 (splitOwnerRepo r).2 with
  | ok ownerLogin =>
    rw [hf] at hp
    simp only [decide_eq_true_eq] at hp
    simp [hf, hp]
  | err =>
    rw [hf] at hp
    simp at hp

/-! ## Claim theorems -/

/-- C1: the claim states that a token produced by the OAuth callback's JWT
signing carries the authenticated identity and therefore verifies
successfully before its TTL elapses.  On the code this is false: the
callback signs only `{token, jti, aud, iss, iat, exp}` and never a
`githubUser` claim, while the `verifyJWT` middleware requires a `githubUser`
claim, so every token the callback issues — even fresh, well signed and with
the right audience — is rejected with the 401 body
"Invalid authentication token". -/
theorem sessionTokenRoundTripRejected (secret accessToken jti : String)
    (environment : Option String) (now tVerify : Nat)
    (hsecret : 32 ≤ secret.length) (hfresh : tVerify < now + 600) :
    verifyJWTMiddleware secret environment
      (some (issueSessionToken secret accessToken jti now)) tVerify =
      .unauthorized "Invalid authentication token" := by
  have h1 : ¬ secret.length < 32 := by omega
  have h2 : ¬ (now + 600 ≤ tVerify) := by omega
  by_cases ha : accessToken = "" <;> by_cases hj : jti = "" <;>
    simp [verifyJWTMiddleware, issueSessionToken, jwtVerifyModel, truthyStr,
      JWT_AUDIENCE, h1, h2, ha, hj]

/-- Witness for C1 at a concrete input: a strong secret, a token issued at
time 0, verified at time 1 (well inside the 600-second TTL). -/
theorem sessionTokenRoundTripRejected_witness :
    32 ≤ sampleSecret.length ∧ (1 : Nat) < 0 + 600 ∧
    verifyJWTMiddleware sampleSecret none
      (some (issueSessionToken sampleSecret "gho_upstream" "jti-0001" 0)) 1 =
      .unauthorized "Invalid authentication token" :=
  ⟨by decide, by decide,
   sessionTokenRoundTripRejected sampleSecret "gho_upstream" "jti-0001" none 0 1
     (by decide) (by decide)⟩

/-- C2: with `dryRun = true` the delete loop never issues the destructive
`octokit.repos.delete` call, and every identifier whose ownership check
passes is still recorded with `success: true`. -/
theorem dryRunNeverDeletes (up : Upstream) (githubUser : String)
    (repos : List String) (r : String) (hr : r ∈ repos)
    (hp : ownershipCheckPasses up githubUser r = true) :
    (executeDelete up githubUser true repos).2.deleteCalls = [] ∧
    ({ repo := r, success := true } : ActionResult) ∈
      (executeDelete up githubUser true repos).1 := by
  constructor
  · apply joinEffects_deleteCalls_nil
    intro e he
    simp only [executeDelete, List.mem_map] at he
    obtain ⟨s, _, rfl⟩ := he
    exact processDeleteItem_dryRun_deleteCalls up githubUser s
  · simp only [executeDelete, List.mem_map]
    exact ⟨r, hr, by rw [processDeleteItem_pass_dryRun up githubUser r hp]⟩

/-- Witness for C2: a two-element dry-run batch against an upstream owned by
`alice`. -/
theorem dryRunNeverDeletes_witness :
    "alice/repo1" ∈ ["alice/repo1", "alice/repo2"] ∧
    ownershipCheckPasses upstreamAlice "alice" "alice/repo1" = true ∧
    ((executeDelete upstreamAlice "alice" true ["alice/repo1", "alice/repo2"]).2.deleteCalls = [] ∧
     ({ repo := "alice/repo1", success := true } : ActionResult) ∈
       (executeDelete upstreamAlice "alice" true ["alice/repo1", "alice/repo2"]).1) :=
  ⟨by decide, by decide,
   dryRunNeverDeletes upstreamAlice "alice" ["alice/repo1", "alice/repo2"] "alice/repo1"
     (by decide) (by decide)⟩

/-- C3: a repository owned by a different account (fetch succeeds but the
owner login differs from the authenticated user) yields exactly the same
Action Result as a repository whose fetch fails — `success: false` with the
generic "Repository not found or access denied" error — in both the delete
and the archive loop. -/
theorem ownershipMismatchIndistinguishable (u1 u2 : Upstream)
    (githubUser r ownerLogin owner repo : String) (dryRun : Bool)
    (hsp : splitOwnerRepo r = (owner, repo))
    (h1 : u1.fetchRepo owner repo = .ok ownerLogin)
    (hne : ownerLogin ≠ githubUser)
    (h2 : u2.fetchRepo owner repo = .err) :
    (processDeleteItem u1 githubUser dryRun r).1 =
      (processDeleteItem u2 githubUser dryRun r).1 ∧
    (processArchiveItem u1 githubUser r).1 =
      (processArchiveItem u2 githubUser r).1 ∧
    (processDeleteItem u1 githubUser dryRun r).1 =
      { repo := r, success := false,
        error := some "Repository not found or access denied" } := by
  refine ⟨?_, ?_, ?_⟩ <;>
    simp [processDeleteItem, processArchiveItem, hsp, h1, h2, hne]

/-- Witness for C3: `bob` targets `alice/repo1`; one upstream reports owner
`alice`, the other reports the repository missing — identical results. -/
theorem ownershipMismatchIndistinguishable_witness :
    splitOwnerRepo "alice/repo1" = ("alice", "repo1") ∧
    upstreamAlice.fetchRepo "alice" "repo1" = .ok "alice" ∧
    "alice" ≠ "bob" ∧
    upstreamMissing.fetchRepo "alice" "repo1" = .err ∧
    ((processDeleteItem upstreamAlice "bob" false "alice/repo1").1 =
       (processDeleteItem upstreamMissing "bob" false "alice/repo1").1 ∧
     (processArchiveItem upstreamAlice "bob" "alice/repo1").1 =
       (processArchiveItem upstreamMissing "bob" "alice/repo1").1 ∧
     (processDeleteItem upstreamAlice "bob" false "alice/repo1").1 =
       { repo := "alice/repo1", success := false,
         error := some "Repository not found or access denied" }) :=
  ⟨by decide, by decide, by decide, by decide,
   ownershipMismatchIndistinguishable upstreamAlice upstreamMissing "bob" "alice/repo1"
     "alice" "alice" "repo1" false (by decide) (by decide) (by decide) (by decide)⟩

/-! ## Validation lemmas -/

/-- The identifier fails one of the per-element checks of `validateRepoList`:
not a string, trimmed form longer than the maximum, or trimmed form failing
the owner/name pattern. -/
def itemMalformed : RepoInput → Bool
  | .notStr => true
  | .str s =>
    decide (MAX_REPO_NAME_LENGTH < (jsTrim s).length) || !repoNamePattern (jsTrim s)

theorem validateItems_ok_length (items : List RepoInput) (repos : List String)
    (h : validateItems items = .ok repos) : repos.length = items.length := by
  induction items generalizing repos with
  | nil =>
    rw [validateItems] at h
    simp at h
    simp [← h]
  | cons a t ih =>
    cases a with
    | notStr => rw [validateItems] at h; simp at h
    | str s =>
      rw [validateItems] at h
      by_cases h1 : MAX_REPO_NAME_LENGTH < (jsTrim s).length
      · simp [h1] at h
      · by_cases h2 : repoNamePattern (jsTrim s) = true
        · simp [h1, h2] at h
          cases hv : validateItems t with
          | error e => rw [hv] at h; simp at h
          | ok tail =>
            rw [hv] at h
            simp at h
            rw [← h]
            simp [ih tail hv]
        · simp [h1, h2] at h

theorem validateItems_error_status (items : List RepoInput) (e : RequestBodyError)
    (h : validateItems items = .error e) : e.status = 400 := by
  induction items generalizing e with
  | nil => rw [validateItems] at h; simp at h
  | cons a t ih =>
    cases a with
    | notStr =>
      rw [validateItems] at h
      simp at h
      simp [← h]
    | str s =>
      rw [validateItems] at h
      by_cases h1 : MAX_REPO_NAME_LENGTH < (jsTrim s).length
      · simp [h1] at h; simp [← h]
      · by_cases h2 : repoNamePattern (jsTrim s) = true
        · simp [h1, h2] at h
          cases hv : validateItems t with
          | error e2 =>
            rw [hv] at h
            simp at h
            rw [← h]
            exact ih e2 hv
          | ok tail => rw [hv] at h; simp at h
        · simp [h1, h2] at h; simp [← h]

theorem validateItems_malformed_error (items : List RepoInput) (i : RepoInput)
    (hmem : i ∈ items) (hbad : itemMalformed i = true) :
    ∃ e, validateItems items = .error e := by
  induction items with
  | nil => cases hmem
  | cons a t ih =>
    cases a with
    | notStr => exact ⟨_, by rw [validateItems]⟩
    | str s =>
      by_cases h1 : MAX_REPO_NAME_LENGTH < (jsTrim s).length
      · exact ⟨{ message := "Repository name too long" },
          by rw [validateItems]; simp [h1]⟩
      · by_cases h2 : repoNamePattern (jsTrim s) = true
        · rcases List.mem_cons.mp hmem with rfl | hmem2
          · exfalso
            simp [itemMalformed, h1, h2] at hbad
          · obtain ⟨e, he⟩ := ih hmem2
            exact ⟨e, by rw [validateItems]; simp [h1, h2, he]⟩
        · exact ⟨{ message := "Invalid repository format. Expected owner/repo" },
            by rw [validateItems]; simp [h1, h2]⟩

theorem validateRepoList_malformed_error (items : List RepoInput) (i : RepoInput)
    (hmem : i ∈ items) (hbad : itemMalformed i = true) :
    ∃ e, validateRepoList (.arr items) = .error e ∧ e.status = 400 := by
  have hne : ¬ items.length = 0 := by
    cases items
    · cases hmem
    · simp
  by_cases hbig : MAX_REPO_BATCH < items.length
  · exact ⟨{ message := "Invalid request: maximum of 100 repositories per request" },
      by rw [validateRepoList]; simp [hne, hbig], rfl⟩
  · obtain ⟨e, he⟩ := validateItems_malformed_error items i hmem hbad
    exact ⟨e, by rw [validateRepoList]; simp [hne, hbig, he],
           validateItems_error_status items e he⟩

theorem filter_success_length (l : List ActionResult) :
    (l.filter fun r => r.success).length +
      (l.filter fun r => !r.success).length = l.length := by
  induction l with
  | nil => rfl
  | cons a t ih => cases ha : a.success <;> simp [List.filter_cons, ha] <;> omega

/-- C4: a validated batch of 1..100 well-formed identifiers produces exactly
one Action Result per input identifier, in submitted order: the result
list's `repo` fields are exactly the validated identifier list, and its
length equals the submitted item count — for the delete loop and the
archive loop alike. -/
theorem batchResultsOrdered (up : Upstream) (githubUser : String) (dryRun : Bool)
    (items : List RepoInput) (repos : List String)
    (h : validateRepoList (.arr items) = .ok repos) :
    ((executeDelete up githubUser dryRun repos).1.map ActionResult.repo = repos ∧
     (executeDelete up githubUser dryRun repos).1.length = items.length) ∧
    ((executeArchive up githubUser repos).1.map ActionResult.repo = repos ∧
     (executeArchive up githubUser repos).1.length = items.length) := by
  have hlen : repos.length = items.length := by
    rw [validateRepoList] at h
    by_cases h0 : items.length = 0
    · simp [h0] at h
    · by_cases h1 : MAX_REPO_BATCH < items.length
      · simp [h0, h1] at h
      · simp [h0, h1] at h
        exact validateItems_ok_length items repos h
  refine ⟨⟨?_, ?_⟩, ⟨?_, ?_⟩⟩
  · rw [executeDelete, List.map_map]
    have hc : ∀ r ∈ repos,
        (ActionResult.repo ∘ fun r => (processDeleteItem up githubUser dryRun r).1) r =
          id r :=
      fun r _ => processDeleteItem_repo up githubUser dryRun r
    rw [List.map_congr_left hc, List.map_id]
  · rw [executeDelete]
    simp [hlen]
  · rw [executeArchive, List.map_map]
    have hc : ∀ r ∈ repos,
        (ActionResult.repo ∘ fun r => (processArchiveItem up githubUser r).1) r = id r :=
      fun r _ => processArchiveItem_repo up githubUser r
    rw [List.map_congr_left hc, List.map_id]
  · rw [executeArchive]
    simp [hlen]

/-- Witness for C4: a two-element batch (the second identifier needs
trimming). -/
theorem batchResultsOrdered_witness :
    validateRepoList (.arr [.str "alice/repo1", .str " alice/repo2 "]) =
      .ok ["alice/repo1", "alice/repo2"] ∧
    (((executeDelete upstreamAlice "alice" false ["alice/repo1", "alice/repo2"]).1.map
        ActionResult.repo = ["alice/repo1", "alice/repo2"] ∧
      (executeDelete upstreamAlice "alice" false ["alice/repo1", "alice/repo2"]).1.length =
        [RepoInput.str "alice/repo1", RepoInput.str " alice/repo2 "].length) ∧
     ((executeArchive upstreamAlice "alice" ["alice/repo1", "alice/repo2"]).1.map
        ActionResult.repo = ["alice/repo1", "alice/repo2"] ∧
      (executeArchive upstreamAlice "alice" ["alice/repo1", "alice/repo2"]).1.length =
        [RepoInput.str "alice/repo1", RepoInput.str " alice/repo2 "].length)) :=
  ⟨by rfl,
   batchResultsOrdered upstreamAlice "alice" false
     [.str "alice/repo1", .str " alice/repo2 "] ["alice/repo1", "alice/repo2"] (by rfl)⟩

theorem mkSummary_invariant (repos : List String) (results : List ActionResult)
    (hlen : results.length = repos.length) :
    (mkSummary repos results).succeeded + (mkSummary repos results).failed =
      (mkSummary repos results).total ∧
    (mkSummary repos results).total = results.length := by
  unfold mkSummary
  refine ⟨?_, hlen.symm⟩
  rw [filter_success_length]
  exact hlen

theorem executeDelete_length (up : Upstream) (githubUser : String) (dryRun : Bool)
    (repos : List String) :
    (executeDelete up githubUser dryRun repos).1.length = repos.length := by
  rw [executeDelete]; simp

theorem executeArchive_length (up : Upstream) (githubUser : String)
    (repos : List String) :
    (executeArchive up githubUser repos).1.length = repos.length := by
  rw [executeArchive]; simp

/-- C5: whenever a delete or archive request passes validation and the
handler returns a result set, the summary satisfies
`succeeded + failed = total` and `total` equals the length of the result
list. -/
theorem summaryInvariant (up1 up2 : Upstream) (user1 user2 : String)
    (body : DeleteBody) (rf : ReposField) (d1 d2 : Bool)
    (results1 results2 : List ActionResult) (s1 s2 : Summary) (eff1 eff2 : Effects)
    (hd : deleteHandler up1 user1 body = (.ok d1 results1 s1, eff1))
    (ha : archiveHandler up2 user2 rf = (.ok d2 results2 s2, eff2)) :
    (s1.succeeded + s1.failed = s1.total ∧ s1.total = results1.length) ∧
    (s2.succeeded + s2.failed = s2.total ∧ s2.total = results2.length) := by
  constructor
  · rw [deleteHandler] at hd
    cases hdr : body.dryRun with
    | none =>
      rw [hdr] at hd
      cases hv : validateRepoList body.repos with
      | error e => rw [hv] at hd; simp at hd
      | ok repos =>
        rw [hv] at hd
        simp at hd
        obtain ⟨⟨-, hres, hsum⟩, -⟩ := hd
        rw [← hres, ← hsum]
        exact mkSummary_invariant repos _ (executeDelete_length _ _ _ _)
    | some dd =>
      cases dd with
      | b v =>
        rw [hdr] at hd
        cases hv : validateRepoList body.repos with
        | error e => rw [hv] at hd; simp at hd
        | ok repos =>
          rw [hv] at hd
          simp at hd
          obtain ⟨⟨-, hres, hsum⟩, -⟩ := hd
          rw [← hres, ← hsum]
          exact mkSummary_invariant repos _ (executeDelete_length _ _ _ _)
      | nonBool => rw [hdr] at hd; simp at hd
  · rw [archiveHandler] at ha
    cases hv : validateRepoList rf with
    | error e => rw [hv] at ha; simp at ha
    | ok repos =>
      rw [hv] at ha
      simp at ha
      obtain ⟨⟨-, hres, hsum⟩, -⟩ := ha
      rw [← hres, ← hsum]
      exact mkSummary_invariant repos _ (executeArchive_length _ _ _)

/-- Witness for C5: one owned and one foreign repository, so the batch has
one success and one failure. -/
theorem summaryInvariant_witness :
    deleteHandler upstreamAlice "alice" { repos := .arr [.str "alice/a", .str "bob/b"] } =
      (.ok false
        [{ repo := "alice/a", success := true },
         { repo := "bob/b", success := true }]
        { total := 2, succeeded := 2, failed := 0 },
       { fetchCalls := [("alice", "a"), ("bob", "b")],
         deleteCalls := [("alice", "a"), ("bob", "b")] }) ∧
    archiveHandler upstreamMissing "alice" (.arr [.str "alice/a"]) =
      (.ok false
        [{ repo := "alice/a", success := false,
           error := some "Repository not found or access denied" }]
        { total := 1, succeeded := 0, failed := 1 },
       { fetchCalls := [("alice", "a")] }) ∧
    (({ total := 2, succeeded := 2, failed := 0 } : Summary).succeeded +
        ({ total := 2, succeeded := 2, failed := 0 } : Summary).failed =
        ({ total := 2, succeeded := 2, failed := 0 } : Summary).total ∧
     ({ total := 2, succeeded := 2, failed := 0 } : Summary).total = 2) ∧
    (({ total := 1, succeeded := 0, failed := 1 } : Summary).succeeded +
        ({ total := 1, succeeded := 0, failed := 1 } : Summary).failed =
        ({ total := 1, succeeded := 0, failed := 1 } : Summary).total ∧
     ({ total := 1, succeeded := 0, failed := 1 } : Summary).total = 1) := by
  refine ⟨by rfl, by rfl, ?_⟩
  have h := summaryInvariant upstreamAlice upstreamMissing "alice" "alice"
    { repos := .arr [.str "alice/a", .str "bob/b"] } (.arr [.str "alice/a"])
    false false
    [{ repo := "alice/a", success := true }, { repo := "bob/b", success := true }]
    [{ repo := "alice/a", success := false,
       error := some "Repository not found or access denied" }]
    { total := 2, succeeded := 2, failed := 0 }
    { total := 1, succeeded := 0, failed := 1 }
    { fetchCalls := [("alice", "a"), ("bob", "b")],
      deleteCalls := [("alice", "a"), ("bob", "b")] }
    { fetchCalls := [("alice", "a")] }
    (by rfl) (by rfl)
  exact h

/-- C6: a batch containing any malformed identifier — a non-string, a
trimmed identifier longer than the maximum, or one failing the owner/name
pattern — is rejected wholesale with a 400 error before any upstream call:
the handler issues no fetch, delete or archive call. -/
theorem malformedBatchRejected (up : Upstream) (githubUser : String)
    (body : DeleteBody) (items : List RepoInput) (i : RepoInput)
    (harr : body.repos = .arr items) (hmem : i ∈ items)
    (hbad : itemMalformed i = true) :
    (∃ msg, deleteHandler up githubUser body = (.err 400 msg, {})) ∧
    (∃ msg, archiveHandler up githubUser body.repos = (.err 400 msg, {})) := by
  obtain ⟨e, he, hst⟩ := validateRepoList_malformed_error items i hmem hbad
  constructor
  · cases hdr : body.dryRun with
    | none =>
      refine ⟨e.message, ?_⟩
      rw [deleteHandler, hdr, harr, he]
      simp [hst]
    | some dd =>
      cases dd with
      | b v =>
        refine ⟨e.message, ?_⟩
        rw [deleteHandler, hdr, harr, he]
        simp [hst]
      | nonBool =>
        refine ⟨"Invalid request: dryRun must be a boolean flag", ?_⟩
        rw [deleteHandler, hdr]
  · refine ⟨e.message, ?_⟩
    rw [archiveHandler, harr, he]
    simp [hst]

/-- Witness for C6: a batch whose second identifier has no slash. -/
theorem malformedBatchRejected_witness :
    ({ repos := .arr [.str "alice/a", .str "noslash"] } : DeleteBody).repos =
      .arr [.str "alice/a", .str "noslash"] ∧
    RepoInput.str "noslash" ∈ [RepoInput.str "alice/a", RepoInput.str "noslash"] ∧
    itemMalformed (.str "noslash") = true ∧
    ((∃ msg, deleteHandler upstreamAlice "alice"
        { repos := .arr [.str "alice/a", .str "noslash"] } = (.err 400 msg, {})) ∧
     (∃ msg, archiveHandler upstreamAlice "alice"
        ({ repos := .arr [.str "alice/a", .str "noslash"] } : DeleteBody).repos =
        (.err 400 msg, {}))) :=
  ⟨rfl, by decide, by decide,
   malformedBatchRejected upstreamAlice "alice"
     { repos := .arr [.str "alice/a", .str "noslash"] }
     [.str "alice/a", .str "noslash"] (.str "noslash") rfl (by decide) (by decide)⟩

/-! ## OAuth callback and remaining claims -/

/-- A stub provider exchange that always returns a token. -/
def sampleExchange : String → ExchangeOutcome := fun _ => .token "gho_sample"

/-- C7 counterexample: the claim quantifies over every callback request
whose state parameter or cookie is absent or mismatched and asserts the
state cookie is cleared.  A request carrying no authorization code (and no
state) is rejected 400 by the missing-code check, which returns before the
state branch — so no clearing `Set-Cookie` is emitted. -/
theorem missingCodeSkipsCookieClear :
    truthyStr ({ code := none, state := none, stateCookie := none } : CallbackRequest).state
      = false ∧
    (callbackHandler sampleSecret sampleExchange
        { code := none, state := none, stateCookie := none } "jti-0001" 0).status = 400 ∧
    (callbackHandler sampleSecret sampleExchange
        { code := none, state := none, stateCookie := none } "jti-0001" 0).clearedStateCookie
      = false := by
  refine ⟨rfl, ?_, ?_⟩ <;> rfl

/-- C7 (amended): for every callback request that does carry an
authorization code, if the state parameter is absent (or empty), the state
cookie is absent (or empty), or the two differ, the request is rejected
with 400, the state cookie is cleared, and the token exchange is never
called.  (When the code is absent the request is still rejected 400 with no
exchange, but the state cookie is not cleared.) -/
theorem stateMismatchRejected (secret : String) (exchange : String → ExchangeOutcome)
    (req : CallbackRequest) (jti : String) (now : Nat)
    (hsecret : 32 ≤ secret.length) (hcode : truthyStr req.code = true)
    (hmismatch : truthyStr req.state = false ∨ truthyStr req.stateCookie = false ∨
      req.stateCookie ≠ req.state) :
    callbackHandler secret exchange req jti now =
      { status := 400, clearedStateCookie := true, exchangeCalled := false } := by
  have h1 : ¬ secret.length < 32 := by omega
  rcases hmismatch with h | h | h <;>
    simp [callbackHandler, h1, hcode, h]

/-- Witness for C7's amended claim: a code-bearing request whose state
cookie differs from the state parameter. -/
theorem stateMismatchRejected_witness :
    32 ≤ sampleSecret.length ∧
    truthyStr (some "gh-code") = true ∧
    (some "state-two" : Option String) ≠ some "state-one" ∧
    callbackHandler sampleSecret sampleExchange
      { code := some "gh-code", state := some "state-one",
        stateCookie := some "state-two" } "jti-0001" 0 =
      { status := 400, clearedStateCookie := true, exchangeCalled := false } :=
  ⟨by decide, by decide, by decide,
   stateMismatchRejected sampleSecret sampleExchange
     { code := some "gh-code", state := some "state-one", stateCookie := some "state-two" }
     "jti-0001" 0 (by decide) (by decide) (Or.inr (Or.inr (by decide)))⟩

/-- C8: with `limit = 5`, `windowMs = 60000`, the first five requests of one
client within a window are allowed, the sixth gets 429, and the first
request at or after window expiry is allowed again with the counter reset
to 1. -/
theorem rateLimiterWindow (key : String) (t1 t2 t3 t4 t5 t6 t7 : Nat)
    (h2 : t2 < t1 + 60000) (h3 : t3 < t1 + 60000) (h4 : t4 < t1 + 60000)
    (h5 : t5 < t1 + 60000) (h6 : t6 < t1 + 60000) (h7 : t1 + 60000 ≤ t7) :
    (runRateLimiter { windowMs := 60000, limit := 5 } [] key
        [t1, t2, t3, t4, t5, t6, t7]).1 =
      [.allowed, .allowed, .allowed, .allowed, .allowed, .tooManyRequests, .allowed] ∧
    storeGet (runRateLimiter { windowMs := 60000, limit := 5 } [] key
        [t1, t2, t3, t4, t5, t6, t7]).2 key =
      some { count := 1, expiresAt := t7 + 60000 } := by
  have s1 : rateLimitStep { windowMs := 60000, limit := 5 } [] key t1 false =
      (.allowed, [(key, { count := 1, expiresAt := t1 + 60000 })]) := by
    rw [rateLimitStep]
    simp [storeGet, storeSet, cleanupStore, CLEANUP_LIMIT]
  have inc : ∀ (c t : Nat), t < t1 + 60000 → c < 5 →
      rateLimitStep { windowMs := 60000, limit := 5 }
        [(key, { count := c, expiresAt := t1 + 60000 })] key t false =
        (.allowed, [(key, { count := c + 1, expiresAt := t1 + 60000 })]) := by
    intro c t ht hc
    have hA : ¬ (t1 + 60000 ≤ t) := Nat.not_le.mpr ht
    have hB : ¬ (5 ≤ c) := Nat.not_le.mpr hc
    rw [rateLimitStep]
    simp [storeGet, storeSet, cleanupStore, CLEANUP_LIMIT, hA, hB]
  have lim : ∀ t : Nat, t < t1 + 60000 →
      rateLimitStep { windowMs := 60000, limit := 5 }
        [(key, { count := 5, expiresAt := t1 + 60000 })] key t false =
        (.tooManyRequests, [(key, { count := 5, expiresAt := t1 + 60000 })]) := by
    intro t ht
    have hA : ¬ (t1 + 60000 ≤ t) := Nat.not_le.mpr ht
    rw [rateLimitStep]
    simp [storeGet, hA]
  have rst : rateLimitStep { windowMs := 60000, limit := 5 }
      [(key, { count := 5, expiresAt := t1 + 60000 })] key t7 false =
      (.allowed, [(key, { count := 1, expiresAt := t7 + 60000 })]) := by
    rw [rateLimitStep]
    simp [storeGet, storeSet, cleanupStore, CLEANUP_LIMIT, h7]
  constructor <;>
    simp [runRateLimiter, s1, inc 1 t2 h2 (by omega), inc 2 t3 h3 (by omega),
      inc 3 t4 h4 (by omega), inc 4 t5 h5 (by omega), lim t6 h6, rst, storeGet]

/-- Witness for C8: six requests in the first millisecond of a window plus
one exactly at expiry. -/
theorem rateLimiterWindow_witness :
    ((1 : Nat) < 0 + 60000 ∧ (2 : Nat) < 0 + 60000 ∧ (3 : Nat) < 0 + 60000 ∧
     (4 : Nat) < 0 + 60000 ∧ (5 : Nat) < 0 + 60000 ∧ (0 : Nat) + 60000 ≤ 60000) ∧
    (runRateLimiter { windowMs := 60000, limit := 5 } [] "203.0.113.9"
        [0, 1, 2, 3, 4, 5, 60000]).1 =
      [.allowed, .allowed, .allowed, .allowed, .allowed, .tooManyRequests, .allowed] ∧
    storeGet (runRateLimiter { windowMs := 60000, limit := 5 } [] "203.0.113.9"
        [0, 1, 2, 3, 4, 5, 60000]).2 "203.0.113.9" =
      some { count := 1, expiresAt := 60000 + 60000 } :=
  ⟨by decide,
   (rateLimiterWindow "203.0.113.9" 0 1 2 3 4 5 60000 (by decide) (by decide)
     (by decide) (by decide) (by decide) (by decide)).1,
   (rateLimiterWindow "203.0.113.9" 0 1 2 3 4 5 60000 (by decide) (by decide)
     (by decide) (by decide) (by decide) (by decide)).2⟩

/-- C9 counterexample: the claim asserts verbose detail is emitted only when
the environment is explicitly `development` and never when the flag is
absent.  But the callers compute `isDev = ENVIRONMENT !== 'production'`, so
with the flag absent the raw error text is returned verbatim. -/
theorem errorLeaksWhenEnvAbsent :
    (none : Option String) ≠ some "development" ∧
    envIsDev none = true ∧
    sanitizeError (.mk "connection refused by host 10.1.2.3") (envIsDev none) =
      "connection refused by host 10.1.2.3" ∧
    sanitizeError (.mk "connection refused by host 10.1.2.3") (envIsDev none) ∉
      genericErrorMessages := by
  refine ⟨by decide, rfl, rfl, by decide⟩

/-- C9 (amended): user-facing error bodies are generic, non-leaking messages
exactly when the environment is configured as `production`; in every other
configuration — explicitly `development`, any other value, or the flag
absent — the raw error message is returned verbatim. -/
theorem sanitizePolicyProductionOnly (environment : Option String) (error : JsError)
    (m : String) :
    (environment = some "production" →
      sanitizeError error (envIsDev environment) ∈ genericErrorMessages) ∧
    (environment ≠ some "production" →
      sanitizeError (.mk m) (envIsDev environment) = m) := by
  constructor
  · intro h
    subst h
    have hd : envIsDev (some "production") = false := by decide
    rw [hd]
    cases error with
    | nonError => simp [sanitizeError, genericErrorMessages]
    | mk msg =>
      rw [sanitizeError]
      simp only [Bool.not_false, if_true]
      split_ifs <;> simp [genericErrorMessages]
  · intro h
    have hd : envIsDev environment = true := by simp [envIsDev, h]
    rw [hd]
    rfl

/-- Witness for C9's amended claim: production yields a generic message, an
absent flag yields the raw message. -/
theorem sanitizePolicyProductionOnly_witness :
    sanitizeError (.mk "boom") (envIsDev (some "production")) ∈ genericErrorMessages ∧
    sanitizeError (.mk "connection reset") (envIsDev none) = "connection reset" :=
  ⟨(sanitizePolicyProductionOnly (some "production") (.mk "boom") "boom").1 rfl,
   (sanitizePolicyProductionOnly none (.mk "connection reset") "connection reset").2
     (by decide)⟩

theorem processDeleteItem_fetchCalls (up : Upstream) (githubUser : String) (d : Bool)
    (r : String) :
    (processDeleteItem up githubUser d r).2.fetchCalls = [splitOwnerRepo r] := by
  unfold processDeleteItem
  repeat' split
  all_goals rfl

/-- C10: identifier validation trims leading and trailing whitespace before
the length and pattern checks, so a well-formed `owner/name` surrounded by
whitespace is accepted; the batch loop then fetches (and acts on) the
trimmed owner/name, and the Action Result echoes the trimmed identifier. -/
theorem trimmedIdentifierAccepted (t : String) (up : Upstream) (githubUser : String)
    (hpat : repoNamePattern (jsTrim t) = true)
    (hlen : (jsTrim t).length ≤ MAX_REPO_NAME_LENGTH) :
    validateRepoList (.arr [.str t]) = .ok [jsTrim t] ∧
    deleteHandler up githubUser { repos := .arr [.str t] } =
      (.ok false (executeDelete up githubUser false [jsTrim t]).1
        (mkSummary [jsTrim t] (executeDelete up githubUser false [jsTrim t]).1),
       (executeDelete up githubUser false [jsTrim t]).2) ∧
    (executeDelete up githubUser false [jsTrim t]).1.map ActionResult.repo = [jsTrim t] ∧
    (executeDelete up githubUser false [jsTrim t]).2.fetchCalls =
      [splitOwnerRepo (jsTrim t)] := by
  have h1 : ¬ MAX_REPO_NAME_LENGTH < (jsTrim t).length := by omega
  have hitems : validateItems [.str t] = .ok [jsTrim t] := by
    rw [validateItems]
    simp [h1, hpat, validateItems]
  have hvl : validateRepoList (.arr [.str t]) = .ok [jsTrim t] := by
    rw [validateRepoList]
    simp [MAX_REPO_BATCH, hitems]
  refine ⟨hvl, ?_, ?_, ?_⟩
  · rw [deleteHandler]
    simp [hvl]
  · simp [executeDelete, processDeleteItem_repo]
  · simp [executeDelete, joinEffects, Effects.append, processDeleteItem_fetchCalls]

/-- Witness for C10: `"  alice/repo1  "` is accepted, acted on, and echoed
as `"alice/repo1"`, which differs from the submitted string. -/
theorem trimmedIdentifierAccepted_witness :
    repoNamePattern (jsTrim "  alice/repo1  ") = true ∧
    (jsTrim "  alice/repo1  ").length ≤ MAX_REPO_NAME_LENGTH ∧
    jsTrim "  alice/repo1  " ≠ "  alice/repo1  " ∧
    (validateRepoList (.arr [.str "  alice/repo1  "]) = .ok [jsTrim "  alice/repo1  "] ∧
     deleteHandler upstreamAlice "alice" { repos := .arr [.str "  alice/repo1  "] } =
       (.ok false
          (executeDelete upstreamAlice "alice" false [jsTrim "  alice/repo1  "]).1
          (mkSummary [jsTrim "  alice/repo1  "]
            (executeDelete upstreamAlice "alice" false [jsTrim "  alice/repo1  "]).1),
        (executeDelete upstreamAlice "alice" false [jsTrim "  alice/repo1  "]).2) ∧
     (executeDelete upstreamAlice "alice" false [jsTrim "  alice/repo1  "]).1.map
        ActionResult.repo = [jsTrim "  alice/repo1  "] ∧
     (executeDelete upstreamAlice "alice" false [jsTrim "  alice/repo1  "]).2.fetchCalls =
       [splitOwnerRepo (jsTrim "  alice/repo1  ")]) :=
  ⟨by decide, by decide, by decide,
   trimmedIdentifierAccepted "  alice/repo1  " upstreamAlice "alice"
     (by decide) (by decide)⟩

end MassRepoDeleter
